import Mathlib

/-!
Verification development for the `Parcer_weather` repository
(`uv_india.py`, `uv_api.py`).

The Python sources are shallowly embedded: Python `float` values that the
program compares and classifies are modelled as `Rat`; network and storage
effects are modelled by passing the outcome of each external call in
explicitly (an upstream oracle `Nat → HttpResult` for the forecast API, a
`RemoteReadResult` for the Supabase read, boolean failure flags for the
storage writes); the SQLite table and the Supabase table are modelled as
lists of rows in insertion order.
-/

deriving instance DecidableEq for Except

namespace Parcer

/-! ## Python string primitives used by the source -/

/-- Whitespace characters removed by Python `str.strip()` (ASCII range). -/
def pyIsSpace (c : Char) : Bool :=
  c ∈ [' ', '\t', '\n', '\r', '\x0b', '\x0c']

/-- List-level model of Python `str.strip()`: drop leading and trailing whitespace. -/
def pyStripList (l : List Char) : List Char :=
  ((l.dropWhile pyIsSpace).reverse.dropWhile pyIsSpace).reverse

/-- Model of Python `str.strip()`. -/
def pyStrip (s : String) : String :=
  ⟨pyStripList s.data⟩

/-- List-level model of Python `str.title()`: a letter is uppercased when the
previous character is not a letter, lowercased otherwise (ASCII case mapping).
The boolean argument records whether the previous character was a letter. -/
def pyTitleAux : List Char → Bool → List Char
  | [], _ => []
  | c :: cs, prevAlpha =>
    (if c.isAlpha then (if prevAlpha then c.toLower else c.toUpper) else c)
      :: pyTitleAux cs c.isAlpha

/-- Model of Python `str.title()`. -/
def pyTitle (s : String) : String :=
  ⟨pyTitleAux s.data false⟩

/-- Model of Python `str.lower()` (ASCII case mapping). -/
def pyLower (s : String) : String :=
  ⟨s.data.map Char.toLower⟩

/-- Value of a list of decimal digit characters. -/
def digitsVal (l : List Char) : Nat :=
  l.foldl (fun acc c => acc * 10 + (c.toNat - 48)) 0

/-- Model of Python `float()` restricted to the plain decimal forms the endpoint
receives: optional surrounding whitespace, optional sign, digits with an optional
single fractional point. Exponent, `inf`/`nan` and underscore forms are not
modelled. Returns `none` where Python `float()` raises `ValueError`. -/
def pyFloat (s : String) : Option Rat :=
  let t := pyStripList s.data
  let signed : Bool × List Char :=
    match t with
    | '-' :: rest => (true, rest)
    | '+' :: rest => (false, rest)
    | _ => (false, t)
  let neg := signed.1
  let u := signed.2
  let ipart := u.takeWhile (fun c => c ≠ '.')
  let dotRest := u.drop ipart.length
  let fpart : Option (List Char) :=
    match dotRest with
    | [] => some []
    | '.' :: fp => if fp.contains '.' then none else some fp
    | _ :: _ => none
  match fpart with
  | none => none
  | some fp =>
    if (ipart ++ fp).all Char.isDigit && !(ipart ++ fp).isEmpty then
      let den : Nat := 10 ^ fp.length
      let numr : Int := (digitsVal ipart * den + digitsVal fp : Nat)
      some (mkRat (if neg then -numr else numr) den)
    else
      none

/-! ## Data model (`uv_india.py`) -/

/-- One stored observation row: the dict built by `fetch_uv` / the columns of the
`uv_index` SQLite table (minus the surrogate autoincrement id, which is the list
position in this model). -/
structure Reading where
  timestamp : String
  city : String
  uv_index : Rat
  uv_desc : String
  temperature : Rat
  feels_like : Rat
  humidity : Int
  wind_speed : Rat
  weather_desc : String
deriving DecidableEq, Repr

/-- The `current` JSON object of an Open-Meteo response; each field is `none`
when the key is absent from the payload (`current["k"]` then raises `KeyError`;
`current.get("weather_code", -1)` instead defaults). -/
structure CurrentFields where
  uv_index : Option Rat
  temperature_2m : Option Rat
  relative_humidity_2m : Option Int
  weather_code : Option Int
  wind_speed_10m : Option Rat
  apparent_temperature : Option Rat
deriving DecidableEq, Repr

/-- Outcome of one `requests.get` against the forecast API:
a transport-level failure (connection error / timeout raised by `requests.get`),
a non-2xx status (raised by `raise_for_status`), or a JSON body whose `current`
object is present or absent. -/
inductive HttpResult where
  | transportError
  | httpStatusError
  | body (current : Option CurrentFields)
deriving DecidableEq, Repr

/-- The ways `fetch_uv` fails: unknown city (`sys.exit(1)` after printing the
available names), a propagated transport error, a propagated HTTP status error,
or a `KeyError` on a malformed payload. -/
inductive FetchErr where
  | unknownCity (available : List String)
  | transport
  | httpStatus
  | missingField (name : String)
deriving DecidableEq, Repr

/-- The `CITIES` dict: name, latitude, longitude. -/
def CITIES : List (String × Rat × Rat) :=
  [ ("Delhi", 28.6139, 77.2090),
    ("Mumbai", 19.0760, 72.8777),
    ("Bangalore", 12.9716, 77.5946),
    ("Hyderabad", 17.3850, 78.4867),
    ("Chennai", 13.0827, 80.2707),
    ("Kolkata", 22.5726, 88.3639),
    ("Pune", 18.5204, 73.8567),
    ("Ahmedabad", 23.0225, 72.5714),
    ("Jaipur", 26.9124, 75.7873),
    ("Goa", 15.2993, 74.1240),
    ("Lucknow", 26.8467, 80.9462),
    ("Chandigarh", 30.7333, 76.7794),
    ("Kochi", 9.9312, 76.2673),
    ("Varanasi", 25.3176, 82.9739),
    ("Agra", 27.1767, 78.0081),
    ("Surat", 21.1702, 72.8311),
    ("Indore", 22.7196, 75.8577) ]

/-- The keys of the `CITIES` dict. -/
def citiesKeys : List String :=
  CITIES.map (fun e => e.1)

/-- Code-point lexicographic order on strings (Python string comparison). -/
def lexLe : List Char → List Char → Bool
  | [], _ => true
  | _ :: _, [] => false
  | a :: as, b :: bs =>
    if a.toNat < b.toNat then true
    else if b.toNat < a.toNat then false
    else lexLe as bs

/-- Stable insertion into a lexicographically sorted list. -/
def insertSorted (x : String) : List String → List String
  | [] => [x]
  | y :: ys => if lexLe x.data y.data then x :: y :: ys else y :: insertSorted x ys

/-- Model of Python `sorted` on a list of strings (insertion sort). -/
def sortStrings (l : List String) : List String :=
  l.foldr insertSorted []

/-- The city names as printed by the unknown-city branch:
`sorted(CITIES.keys())`. -/
def sortedCityList : List String :=
  sortStrings citiesKeys

def DEFAULT_CITY : String := "Delhi"

/-- The `WMO_CODES` dict. -/
def WMO_CODES : List (Int × String) :=
  [ (0, "Clear sky"), (1, "Mainly clear"), (2, "Partly cloudy"), (3, "Overcast"),
    (45, "Foggy"), (48, "Rime fog"),
    (51, "Light drizzle"), (53, "Moderate drizzle"), (55, "Dense drizzle"),
    (61, "Slight rain"), (63, "Moderate rain"), (65, "Heavy rain"),
    (71, "Slight snow"), (73, "Moderate snow"), (75, "Heavy snow"),
    (80, "Slight rain showers"), (81, "Moderate rain showers"), (82, "Violent rain showers"),
    (85, "Slight snow showers"), (86, "Heavy snow showers"),
    (95, "Thunderstorm"), (96, "Thunderstorm with hail"), (99, "Thunderstorm with heavy hail") ]

/-- The UV severity classification chain of `fetch_uv` (lines 84-94 of
`uv_india.py`). -/
def uv_desc_of (uv : Rat) : String :=
  if uv ≤ 2 then "Low"
  else if uv ≤ 5 then "Moderate"
  else if uv ≤ 7 then "High"
  else if uv ≤ 10 then "Very High"
  else "Extreme"

/-- The reading dict built from a `current` object by `fetch_uv`, accessing the
required fields in the source's evaluation order; a missing required field is a
`KeyError` (`FetchErr.missingField`). -/
def buildReading (city_title now : String) (current : CurrentFields) :
    Except FetchErr Reading :=
  match current.uv_index with
  | none => .error (.missingField "uv_index")
  | some uv =>
    let weather_desc := ((WMO_CODES.lookup (current.weather_code.getD (-1))).getD "Unknown")
    match current.temperature_2m with
    | none => .error (.missingField "temperature_2m")
    | some temp =>
      match current.apparent_temperature with
      | none => .error (.missingField "apparent_temperature")
      | some feels =>
        match current.relative_humidity_2m with
        | none => .error (.missingField "relative_humidity_2m")
        | some hum =>
          match current.wind_speed_10m with
          | none => .error (.missingField "wind_speed_10m")
          | some wind =>
            .ok { timestamp := now, city := city_title,
                  uv_index := uv, uv_desc := uv_desc_of uv,
                  temperature := temp, feels_like := feels,
                  humidity := hum, wind_speed := wind,
                  weather_desc := weather_desc }

/-- `fetch_uv` of `uv_india.py`, instrumented with the number of upstream GET
attempts made and the list of backoff sleep delays (in seconds) performed.
The source canonicalizes the city with `city.strip().title()`, exits listing
the sorted city names when it is not a `CITIES` key, and otherwise issues
exactly one `requests.get` — there is no retry loop and no sleep, so the
attempt count is at most one and the delay list is always empty. `upstream n`
is the outcome the network would give to the n-th GET attempt. -/
def fetch_uv (city : String) (now : String) (upstream : Nat → HttpResult) :
    Except FetchErr Reading × Nat × List Nat :=
  let city_title := pyTitle (pyStrip city)
  if citiesKeys.contains city_title then
    match upstream 0 with
    | .transportError => (.error .transport, 1, [])
    | .httpStatusError => (.error .httpStatus, 1, [])
    | .body none => (.error (.missingField "current"), 1, [])
    | .body (some current) => (buildReading city_title now current, 1, [])
  else
    (.error (.unknownCity sortedCityList), 0, [])

/-! ## Persistence (`uv_india.py`) -/

/-- The SQLite read of `get_uv`: `WHERE city = ? ORDER BY id DESC LIMIT 1`
(the parameter is `city.strip().title()`), or `ORDER BY id DESC LIMIT 1`
without a city. With rows kept in insertion order this is the last matching
row. -/
def localLatest (city : Option String) (db : List Reading) : Option Reading :=
  match city with
  | some c => (db.filter (fun r => r.city = pyTitle (pyStrip c))).getLast?
  | none => db.getLast?

/-- The REST write issued by `save_to_supabase`: a POST to the configured
table, recording whether the request carries an `on_conflict` query parameter
and whether its `Prefer` header requests `resolution=merge-duplicates`. -/
structure PgInsertRequest where
  table : String
  hasOnConflictParam : Bool
  preferMergeDuplicates : Bool
  row : Reading
deriving DecidableEq, Repr

/-- The request `save_to_supabase` builds (lines 173-193 of `uv_india.py`):
a plain POST with `Prefer: return=minimal` — no `on_conflict` parameter and no
merge-duplicates preference. -/
def save_to_supabase_request (data : Reading) : PgInsertRequest :=
  { table := "uv_index",
    hasOnConflictParam := false,
    preferMergeDuplicates := false,
    row := data }

/-- PostgREST semantics of a POST insert: the row merges over an existing row
with the same key only when the request carries both the `on_conflict`
parameter and the merge-duplicates preference; otherwise the POST appends a
new row. -/
def pgApply (req : PgInsertRequest) (tbl : List Reading) : List Reading :=
  if req.hasOnConflictParam && req.preferMergeDuplicates then
    (tbl.filter (fun r => r.city ≠ req.row.city)) ++ [req.row]
  else
    tbl ++ [req.row]

/-- `save_to_supabase` of `uv_india.py`: returns unchanged when Supabase is not
configured, otherwise applies its POST request to the remote table. -/
def save_to_supabase (enabled : Bool) (data : Reading) (tbl : List Reading) :
    List Reading :=
  if enabled then pgApply (save_to_supabase_request data) tbl else tbl

/-- `save` of `uv_india.py`. `localFail` is whether the SQLite insert raises
(the exception propagates: `.error`); `remoteFail` is whether the Supabase
write raises a `requests.RequestException` (caught and logged: the operation
still succeeds). On success it returns the updated (SQLite, Supabase) pair. -/
def save (data : Reading) (enabled : Bool) (localFail remoteFail : Bool)
    (db tbl : List Reading) : Except Unit (List Reading × List Reading) :=
  if localFail then
    .error ()
  else
    let db2 := db ++ [data]
    if enabled then
      if remoteFail then .ok (db2, tbl)
      else .ok (db2, save_to_supabase enabled data tbl)
    else .ok (db2, tbl)

/-- Outcome of the `get_uv_from_supabase` call inside `get_uv`: the request
raises a `requests.RequestException`, or returns its row list (at most one row
because of `limit 1`, hence an `Option`). -/
inductive RemoteReadResult where
  | raise
  | rows (r : Option Reading)
deriving DecidableEq, Repr

/-- `get_uv` of `uv_india.py`: when Supabase is configured, try the remote read
first — a nonempty row is returned, an empty result or a raised
`RequestException` falls through to the SQLite read; when not configured, read
SQLite directly. Returns `none` (the empty dict) when nothing is found. -/
def get_uv (city : Option String) (enabled : Bool) (remote : RemoteReadResult)
    (db : List Reading) : Option Reading :=
  if enabled then
    match remote with
    | .rows (some row) => some row
    | .rows none => localLatest city db
    | .raise => localLatest city db
  else
    localLatest city db

/-! ## HTTP handler (`uv_api.py`) -/

/-- The raw query parameters of a `/banner/uv` request; `none` when the
parameter is absent from the query string. -/
structure Query where
  city : Option String
  op : Option String
  threshold : Option String
  fresh : Option String
deriving DecidableEq, Repr

/-- `city = query.get("city", [DEFAULT_CITY])[0]`. -/
def queryCity (q : Query) : String :=
  q.city.getD DEFAULT_CITY

/-- `op = query.get("op", ["gte"])[0].lower()`. -/
def queryOp (q : Query) : String :=
  pyLower (q.op.getD "gte")

/-- `fresh = query.get("fresh", ["0"])[0] in {"1", "true", "True", "yes"}`. -/
def queryFresh (q : Query) : Bool :=
  ["1", "true", "True", "yes"].contains (q.fresh.getD "0")

/-- `query.get("threshold", ["6"])[0]`, the string passed to `float()`. -/
def queryThresholdRaw (q : Query) : String :=
  q.threshold.getD "6"

/-- The keys of the `OPS` dict of `uv_api.py`. -/
def OPS : List String := ["gte", "gt", "lte", "lt", "eq"]

/-- `OPS[op](uv, threshold)` of `uv_api.py`: the comparator lambdas. -/
def opsApply (op : String) (uv threshold : Rat) : Bool :=
  if op = "gte" then decide (uv ≥ threshold)
  else if op = "gt" then decide (uv > threshold)
  else if op = "lte" then decide (uv ≤ threshold)
  else if op = "lt" then decide (uv < threshold)
  else decide (uv = threshold)

/-- The JSON body of a 200 response from `/banner/uv`. -/
structure TriggerBody where
  city : String
  timestamp : String
  uv_index : Rat
  uv_desc : String
  trigger_op : String
  trigger_threshold : Rat
  trigger_matched : Bool
  banner_uv : Rat
  banner_show : Bool
deriving DecidableEq, Repr

/-- Responses of the `/banner/uv` handler: 400, 502, 200 with a body, or the
worker dying on an uncaught `SystemExit` (the unknown-city `sys.exit(1)` in
`fetch_uv` is not an `Exception`, so `except Exception` does not catch it). -/
inductive Response where
  | badRequest (msg : String)
  | badGateway
  | okJson (body : TriggerBody)
  | uncaughtSystemExit
deriving DecidableEq, Repr

/-- The externally-supplied outcomes of one request's side effects: whether
Supabase is configured, the remote read outcome, the upstream oracle, the
generation timestamp, the write failure flags, and the two store states. -/
structure World where
  enabled : Bool
  remoteRead : RemoteReadResult
  upstream : Nat → HttpResult
  now : String
  localFail : Bool
  remoteFail : Bool
  db : List Reading
  tbl : List Reading

/-- Result of one `/banner/uv` request: the response, the number of upstream
fetches and of store writes performed, and the resulting store states. -/
structure GetOutcome where
  response : Response
  fetchCalls : Nat
  saveCalls : Nat
  db : List Reading
  tbl : List Reading
deriving Repr

/-- The 200 body built from the reading in hand: `matched = OPS[op](uv,
threshold)`; `uv_value = float(latest.get("uv_index", 0))` — the reading always
carries its `uv_index`. -/
def mkBody (op : String) (threshold : Rat) (r : Reading) : TriggerBody :=
  let uv := r.uv_index
  let m := opsApply op uv threshold
  { city := r.city, timestamp := r.timestamp, uv_index := uv, uv_desc := r.uv_desc,
    trigger_op := op, trigger_threshold := threshold, trigger_matched := m,
    banner_uv := uv, banner_show := m }

/-- The `latest = fetch_uv(city); save(latest)` sequence shared by the
`fresh` branch and the cache-miss branch of `do_GET`, wrapped in the handler's
`try`: fetch errors and save errors become 502, an unknown city kills the
worker, a success produces the 200 body. -/
def fetchAndStore (city op : String) (threshold : Rat) (w : World) : GetOutcome :=
  match fetch_uv city w.now w.upstream with
  | (.error (.unknownCity _), n, _) =>
    { response := .uncaughtSystemExit, fetchCalls := n, saveCalls := 0,
      db := w.db, tbl := w.tbl }
  | (.error _, n, _) =>
    { response := .badGateway, fetchCalls := n, saveCalls := 0,
      db := w.db, tbl := w.tbl }
  | (.ok r, n, _) =>
    match save r w.enabled w.localFail w.remoteFail w.db w.tbl with
    | .error _ =>
      { response := .badGateway, fetchCalls := n, saveCalls := 1,
        db := w.db, tbl := w.tbl }
    | .ok (db2, tbl2) =>
      { response := .okJson (mkBody op threshold r), fetchCalls := n, saveCalls := 1,
        db := db2, tbl := tbl2 }

/-- The `/banner/uv` branch of `UVHandler.do_GET` (lines 61-118 of
`uv_api.py`): parse the query with its defaults, reject a non-numeric
threshold then an unknown op with 400 before any fetch or store, then either
force a fresh fetch-and-store, serve the cached reading, or fill the cache on
a miss. -/
def banner_GET (q : Query) (w : World) : GetOutcome :=
  let city := queryCity q
  let op := queryOp q
  let fresh := queryFresh q
  match pyFloat (queryThresholdRaw q) with
  | none =>
    { response := .badRequest "Invalid threshold. Use number, e.g. threshold=6",
      fetchCalls := 0, saveCalls := 0, db := w.db, tbl := w.tbl }
  | some threshold =>
    if OPS.contains op = false then
      { response := .badRequest "Invalid op. Use one of: gte, gt, lte, lt, eq",
        fetchCalls := 0, saveCalls := 0, db := w.db, tbl := w.tbl }
    else
      if fresh then
        fetchAndStore city op threshold w
      else
        match get_uv (some city) w.enabled w.remoteRead w.db with
        | some r =>
          { response := .okJson (mkBody op threshold r), fetchCalls := 0,
            saveCalls := 0, db := w.db, tbl := w.tbl }
        | none =>
          fetchAndStore city op threshold w

/-! ## CLI entry point (`uv_india.py` main) -/

/-- Process exit: `ok` is exit code 0, `err` any non-zero exit (uncaught
exception traceback or `sys.exit(1)`). -/
inductive ExitCode where
  | ok
  | err
deriving DecidableEq, Repr

/-- Result of one CLI run: exit status, the cities the run refreshed, the
sleep delays performed, and the resulting store states. -/
structure MainOutcome where
  exitCode : ExitCode
  processedCities : List String
  sleeps : List Nat
  db : List Reading
  tbl : List Reading
deriving Repr

/-- `main` of `uv_india.py`: take the single optional positional argument
(default `DEFAULT_CITY`), fetch it, save it, print. Exactly one city per run;
a fetch or local-save failure terminates the process with a non-zero code. -/
def main_run (argv : List String) (w : World) : MainOutcome :=
  let city := argv.headD DEFAULT_CITY
  match fetch_uv city w.now w.upstream with
  | (.error _, _, sl) =>
    { exitCode := .err, processedCities := [city], sleeps := sl, db := w.db, tbl := w.tbl }
  | (.ok data, _, sl) =>
    match save data w.enabled w.localFail w.remoteFail w.db w.tbl with
    | .error _ =>
      { exitCode := .err, processedCities := [city], sleeps := sl, db := w.db, tbl := w.tbl }
    | .ok (db2, tbl2) =>
      { exitCode := .ok, processedCities := [city], sleeps := sl, db := db2, tbl := tbl2 }

/-- Iterated remote writes for the same reading (the repeated-upsert scenario
of the claim about remote convergence). -/
def repeatRemoteWrites (data : Reading) : Nat → List Reading → List Reading
  | 0, tbl => tbl
  | n + 1, tbl => repeatRemoteWrites data n (save_to_supabase true data tbl)

/-- Iterated successful local saves of the same reading (Supabase disabled),
tracking only the SQLite table. -/
def repeatLocalSaves (data : Reading) : Nat → List Reading → List Reading
  | 0, db => db
  | n + 1, db =>
    match save data false false false db [] with
    | .ok (db2, _) => repeatLocalSaves data n db2
    | .error _ => db

/-- The severity order of the five band names, for stating monotonicity of the
classification (Low < Moderate < High < Very High < Extreme). -/
def bandRank : String → Nat
  | "Low" => 0
  | "Moderate" => 1
  | "High" => 2
  | "Very High" => 3
  | _ => 4

/-- The bucket function exactly as the claim states it:
v ≤ 2 → Low, v ≤ 5 → Moderate, v ≤ 7 → High, v ≤ 10 → Very High, else Extreme.
Spec-side definition, to be compared with `uv_desc_of` from the source. -/
def claimBucket (v : Rat) : String :=
  if v ≤ 2 then "Low"
  else if v ≤ 5 then "Moderate"
  else if v ≤ 7 then "High"
  else if v ≤ 10 then "Very High"
  else "Extreme"

/-- A well-formed `current` payload used as a concrete test vector. -/
def sampleCurrent : CurrentFields :=
  { uv_index := some 6, temperature_2m := some 30, relative_humidity_2m := some 40,
    weather_code := some 0, wind_speed_10m := some 10, apparent_temperature := some 32 }

/-- A concrete stored reading used as a concrete test vector. -/
def sampleReading : Reading :=
  { timestamp := "2026-01-01T00:00:00", city := "Delhi", uv_index := 6,
    uv_desc := "High", temperature := 30, feels_like := 32, humidity := 40,
    wind_speed := 10, weather_desc := "Clear sky" }

/-- An all-zero reading, for distinguishing absence from a zero-valued row. -/
def zeroReading : Reading :=
  { timestamp := "", city := "", uv_index := 0, uv_desc := "", temperature := 0,
    feels_like := 0, humidity := 0, wind_speed := 0, weather_desc := "" }

/-- An upstream that fails with a transport error on the first two attempts and
would succeed on the third — the retry scenario of the retry claim. -/
def failTwiceUpstream : Nat → HttpResult :=
  fun n => if n < 2 then .transportError else .body (some sampleCurrent)

/-- A world with everything healthy: Supabase configured and succeeding,
upstream succeeding, empty stores. -/
def healthyWorld : World :=
  { enabled := true, remoteRead := .rows none, upstream := fun _ => .body (some sampleCurrent),
    now := "2026-01-01T00:00:00", localFail := false, remoteFail := false,
    db := [], tbl := [] }

/-! ## Helper lemmas: ASCII case mapping -/

theorem char_toNat_ofNat (n : Nat) (h : n.isValidChar) : (Char.ofNat n).toNat = n := by
  simp [Char.ofNat, h, Char.ofNatAux, Char.toNat, UInt32.toNat, BitVec.ofNatLt]

theorem char_toNat_inj {c d : Char} (h : c.toNat = d.toNat) : c = d := by
  apply Char.ext
  apply UInt32.ext
  simpa [Char.toNat, UInt32.toNat] using h

theorem char_toLower_toNat (c : Char) :
    (Char.toLower c).toNat = if 65 ≤ c.toNat ∧ c.toNat ≤ 90 then c.toNat + 32 else c.toNat := by
  unfold Char.toLower
  by_cases h : 65 ≤ c.toNat ∧ c.toNat ≤ 90
  · have hv : (c.toNat + 32).isValidChar := by
      unfold Nat.isValidChar
      left
      omega
    simp only [ge_iff_le, h, and_true, if_pos, true_and]
    exact char_toNat_ofNat _ hv
  · rw [if_neg, if_neg h]
    intro hc
    exact h ⟨hc.1, hc.2⟩

theorem char_toUpper_toNat (c : Char) :
    (Char.toUpper c).toNat = if 97 ≤ c.toNat ∧ c.toNat ≤ 122 then c.toNat - 32 else c.toNat := by
  unfold Char.toUpper
  by_cases h : 97 ≤ c.toNat ∧ c.toNat ≤ 122
  · have hv : (c.toNat - 32).isValidChar := by
      unfold Nat.isValidChar
      left
      omega
    simp only [ge_iff_le, h, and_true, if_pos, true_and]
    exact char_toNat_ofNat _ hv
  · rw [if_neg, if_neg h]
    intro hc
    exact h ⟨hc.1, hc.2⟩

theorem uint32_le_iff (a b : UInt32) : a ≤ b ↔ a.toNat ≤ b.toNat := by
  simp [UInt32.le_def, BitVec.le_def, UInt32.toNat]

theorem char_isAlpha_iff (c : Char) :
    c.isAlpha = true ↔ (65 ≤ c.toNat ∧ c.toNat ≤ 90) ∨ (97 ≤ c.toNat ∧ c.toNat ≤ 122) := by
  simp [Char.isAlpha, Char.isUpper, Char.isLower, uint32_le_iff, Char.toNat]
  exact Iff.rfl

theorem char_toLower_isAlpha (c : Char) : (Char.toLower c).isAlpha = c.isAlpha := by
  rw [Bool.eq_iff_iff, char_isAlpha_iff, char_isAlpha_iff, char_toLower_toNat]
  by_cases h : 65 ≤ c.toNat ∧ c.toNat ≤ 90
  · rw [if_pos h]
    omega
  · rw [if_neg h]

theorem char_toLower_toLower (c : Char) : Char.toLower (Char.toLower c) = Char.toLower c := by
  apply char_toNat_inj
  rw [char_toLower_toNat, char_toLower_toNat]
  split_ifs <;> omega

theorem char_toUpper_toLower (c : Char) : Char.toUpper (Char.toLower c) = Char.toUpper c := by
  apply char_toNat_inj
  rw [char_toUpper_toNat, char_toLower_toNat, char_toUpper_toNat]
  split_ifs <;> omega

theorem char_toLower_of_not_alpha (c : Char) (h : c.isAlpha = false) : Char.toLower c = c := by
  apply char_toNat_inj
  rw [char_toLower_toNat]
  have hn : ¬ ((65 ≤ c.toNat ∧ c.toNat ≤ 90) ∨ (97 ≤ c.toNat ∧ c.toNat ≤ 122)) := by
    rw [← char_isAlpha_iff]
    simp [h]
  split_ifs with hif
  · omega
  · rfl

theorem char_toLower_pyIsSpace (c : Char) : pyIsSpace (Char.toLower c) = pyIsSpace c := by
  have heq : ∀ d : Char, ∀ e : Char, (d = e) ↔ (d.toNat = e.toNat) := by
    intro d e
    exact ⟨fun h => by rw [h], fun h => char_toNat_inj h⟩
  have h1 : (' ' : Char).toNat = 32 := by decide
  have h2 : ('\t' : Char).toNat = 9 := by decide
  have h3 : ('\n' : Char).toNat = 10 := by decide
  have h4 : ('\x0d' : Char).toNat = 13 := by decide
  have h5 : ('\x0b' : Char).toNat = 11 := by decide
  have h6 : ('\x0c' : Char).toNat = 12 := by decide
  simp only [pyIsSpace, List.mem_cons, List.not_mem_nil, or_false]
  rw [Bool.eq_iff_iff]
  simp only [decide_eq_true_eq, heq, char_toLower_toNat, h1, h2, h3, h4, h5, h6]
  split_ifs with h
  · constructor <;> intro hc <;> omega
  · exact Iff.rfl

/-! ## Helper lemmas: `pyStrip`, `pyTitle` -/

theorem dropWhile_all_nil (p : Char → Bool) (a : List Char) (h : a.all p = true) :
    a.dropWhile p = [] := by
  rw [List.dropWhile_eq_nil_iff]
  intro x hx
  exact List.all_eq_true.mp h x hx

theorem dropWhile_all_append (p : Char → Bool) (a b : List Char) (h : a.all p = true) :
    (a ++ b).dropWhile p = b.dropWhile p := by
  induction a with
  | nil => rfl
  | cons c cs ih =>
    simp only [List.all_cons, Bool.and_eq_true] at h
    simpa [List.dropWhile, h.1] using ih h.2

theorem pyStripList_pad (pre suf l : List Char)
    (hp : pre.all pyIsSpace = true) (hs : suf.all pyIsSpace = true) :
    pyStripList (pre ++ l ++ suf) = pyStripList l := by
  unfold pyStripList
  rw [List.append_assoc, dropWhile_all_append _ _ _ hp, List.dropWhile_append]
  by_cases he : (l.dropWhile pyIsSpace).isEmpty
  · rw [if_pos he]
    rw [List.isEmpty_iff] at he
    rw [he, dropWhile_all_nil _ _ hs]
  · rw [if_neg he]
    rw [List.reverse_append, dropWhile_all_append _ _ _ (by simpa using hs)]

theorem pyTitleAux_map_toLower (l : List Char) (b : Bool) :
    pyTitleAux (l.map Char.toLower) b = pyTitleAux l b := by
  induction l generalizing b with
  | nil => rfl
  | cons c cs ih =>
    by_cases ha : c.isAlpha
    · cases b <;>
        simp [pyTitleAux, char_toLower_isAlpha, ih, ha, char_toLower_toLower,
          char_toUpper_toLower]
    · have hfix := char_toLower_of_not_alpha c (by simpa using ha)
      simp [pyTitleAux, char_toLower_isAlpha, ih, ha, hfix]

theorem pyStripList_map_toLower (l : List Char) :
    pyStripList (l.map Char.toLower) = (pyStripList l).map Char.toLower := by
  unfold pyStripList
  rw [List.dropWhile_map, ← List.map_reverse, List.dropWhile_map, ← List.map_reverse]
  have hcomp : (pyIsSpace ∘ Char.toLower) = pyIsSpace := by
    funext c
    exact char_toLower_pyIsSpace c

  rw [hcomp]

/-- The canonical form `city.strip().title()` computed by `fetch_uv`. -/
theorem canon_lower (s : String) : pyTitle (pyStrip (pyLower s)) = pyTitle (pyStrip s) := by
  unfold pyTitle pyStrip pyLower
  simp only [pyStripList_map_toLower, pyTitleAux_map_toLower]

theorem canon_pad (s : String) (pre suf : List Char)
    (hp : pre.all pyIsSpace = true) (hs : suf.all pyIsSpace = true) :
    pyTitle (pyStrip ⟨pre ++ s.data ++ suf⟩) = pyTitle (pyStrip s) := by
  unfold pyTitle pyStrip
  rw [pyStripList_pad _ _ _ hp hs]

/-! ## Helper lemmas: shapes of the embedded operations -/

theorem fetch_uv_shape (city now : String) (upstream : Nat → HttpResult) :
    fetch_uv city now upstream =
      ((fetch_uv city now upstream).1,
        if citiesKeys.contains (pyTitle (pyStrip city)) then 1 else 0, []) := by
  unfold fetch_uv
  by_cases hc : citiesKeys.contains (pyTitle (pyStrip city)) = true
  · rw [if_pos hc, if_pos hc]
    cases hu : upstream 0 with
    | transportError => rfl
    | httpStatusError => rfl
    | body oc => cases oc <;> rfl
  · rw [if_neg hc, if_neg hc]

theorem save_ok_iff (data : Reading) (enabled localFail remoteFail : Bool)
    (db tbl : List Reading) :
    (save data enabled localFail remoteFail db tbl = .error ()) = (localFail = true) := by
  cases localFail <;> cases enabled <;> cases remoteFail <;> simp [save]

theorem buildReading_ok_fields (ct now : String) (cur : CurrentFields) (r : Reading)
    (h : buildReading ct now cur = .ok r) :
    r.city = ct ∧ r.uv_desc = uv_desc_of r.uv_index := by
  rcases cur with ⟨uv, t2, h2, wc, ws, ap⟩
  cases uv <;> cases t2 <;> cases ap <;> cases h2 <;> cases ws <;>
    simp_all [buildReading] <;> subst h <;> exact ⟨rfl, rfl⟩

/-! ## Claim theorems -/

/-- C2: the severity band `fetch_uv` assigns is exactly the claimed bucket
function (≤2 Low, ≤5 Moderate, ≤7 High, ≤10 Very High, else Extreme), a pure
function of the uv value alone; it is monotone — a larger uv value never maps
to a lower band — and the boundaries are inclusive on the lower band:
2 is Low and 2.01 is Moderate. -/
theorem uv_band_bucket_monotone (v w : Rat) (hv : 0 ≤ v) :
    uv_desc_of v = claimBucket v
    ∧ (v ≤ w → bandRank (uv_desc_of v) ≤ bandRank (uv_desc_of w))
    ∧ uv_desc_of 2 = "Low"
    ∧ uv_desc_of (201 / 100) = "Moderate"
    ∧ (∀ (ct nowStr : String) (cur : CurrentFields) (r : Reading),
        buildReading ct nowStr cur = .ok r → r.uv_desc = uv_desc_of r.uv_index) := by
  refine ⟨rfl, ?_, by norm_num [uv_desc_of], by norm_num [uv_desc_of],
    fun ct nowStr cur r h => (buildReading_ok_fields ct nowStr cur r h).2⟩
  intro hvw
  unfold uv_desc_of
  split_ifs <;> first | decide | linarith

/-- Witness for the band-classification theorem at uv values 3 and 8. -/
theorem uv_band_bucket_monotone_witness :
    (0 : Rat) ≤ 3
    ∧ uv_desc_of 3 = claimBucket 3
    ∧ ((3 : Rat) ≤ 8 → bandRank (uv_desc_of 3) ≤ bandRank (uv_desc_of 8))
    ∧ uv_desc_of 2 = "Low"
    ∧ uv_desc_of (201 / 100) = "Moderate" :=
  ⟨by norm_num, (uv_band_bucket_monotone 3 8 (by norm_num)).1,
    (uv_band_bucket_monotone 3 8 (by norm_num)).2.1,
    (uv_band_bucket_monotone 3 8 (by norm_num)).2.2.1,
    (uv_band_bucket_monotone 3 8 (by norm_num)).2.2.2.1⟩

/-- C4: `get_uv` returns the local store's value when the configured remote
read raises, reads the local store directly when the remote is not configured,
and returns `none` (the empty dict) when both stores are empty — a value
distinct from any reading, in particular a zero-valued one. -/
theorem get_uv_remote_fallback (city : Option String) (db : List Reading)
    (rr : RemoteReadResult) :
    get_uv city true .raise db = localLatest city db
    ∧ get_uv city false rr db = localLatest city db
    ∧ get_uv city true .raise [] = none
    ∧ get_uv city true (.rows none) [] = none
    ∧ get_uv city false rr [] = none
    ∧ (∀ r : Reading, get_uv city true .raise [] ≠ some r)
    ∧ get_uv city true .raise [] ≠ some zeroReading := by
  have hnil : localLatest city [] = none := by
    cases city <;> simp [localLatest]
  refine ⟨rfl, ?_, ?_, ?_, ?_, ?_, ?_⟩ <;>
    cases rr <;> simp [get_uv, hnil]

/-- C5: `save` writes the local store unconditionally — a local (SQLite)
failure propagates to the caller, and on success the local store has the new
row appended — while a remote (Supabase) write failure is caught and never
fails the overall operation: the outcome depends only on the local flag. -/
theorem save_local_durability (data : Reading) (enabled localFail remoteFail : Bool)
    (db tbl : List Reading) :
    ((save data enabled localFail remoteFail db tbl).toOption ≠ none ↔ localFail = false)
    ∧ (localFail = true → save data enabled localFail remoteFail db tbl = .error ())
    ∧ (localFail = false →
        (save data enabled localFail remoteFail db tbl).toOption.map Prod.fst
          = some (db ++ [data])) := by
  cases localFail <;> cases enabled <;> cases remoteFail <;>
    simp [save, Except.toOption]

/-- Witness for the save-durability theorem: a successful save with Supabase
configured but failing still appends the row locally. -/
theorem save_local_durability_witness :
    (save sampleReading true false true [] []).toOption.map Prod.fst
      = some ([] ++ [sampleReading]) :=
  (save_local_durability sampleReading true false true [] []).2.2 rfl

/-- C10: omitted query parameters of `/banner/uv` receive defaults — city
"Delhi", op "gte", threshold 6, fresh false; the op value is lowercased before
validation; fresh is true exactly for the values "1", "true", "True", "yes";
and a request with no parameters behaves exactly as one with the explicit
defaults. -/
theorem banner_query_defaults (w : World) (a b c : Option String) (s v : String) :
    queryCity ⟨none, a, b, c⟩ = "Delhi"
    ∧ queryOp ⟨a, none, b, c⟩ = "gte"
    ∧ pyFloat (queryThresholdRaw ⟨a, b, none, c⟩) = some 6
    ∧ queryFresh ⟨a, b, c, none⟩ = false
    ∧ queryOp ⟨a, some s, b, c⟩ = pyLower s
    ∧ (queryFresh ⟨a, b, c, some v⟩ = true
        ↔ v = "1" ∨ v = "true" ∨ v = "True" ∨ v = "yes")
    ∧ banner_GET ⟨none, none, none, none⟩ w
        = banner_GET ⟨some "Delhi", some "gte", some "6", some "0"⟩ w := by
  refine ⟨rfl, rfl, ?_, rfl, rfl, ?_, rfl⟩
  · show pyFloat "6" = some 6
    decide
  · simp [queryFresh]

/-- C1 counterexample: against an upstream that fails with transport errors on
the first two attempts and would succeed on the third, `fetch_uv` for Delhi
makes exactly one attempt, performs no backoff sleeps, and propagates the
transport failure — not the claimed 3 attempts with 1s and 2s delays returning
the third attempt's result, and no `UpstreamError` wrapper exists. -/
theorem fetch_uv_retry_counterexample :
    fetch_uv "Delhi" "T" failTwiceUpstream = (.error .transport, 1, [])
    ∧ failTwiceUpstream 2 = .body (some sampleCurrent)
    ∧ ¬((fetch_uv "Delhi" "T" failTwiceUpstream).2.1 = 3
        ∧ (fetch_uv "Delhi" "T" failTwiceUpstream).2.2 = [1, 2]) := by
  decide

/-- C1 (amended): `fetch_uv` performs at most one upstream attempt per call
and never sleeps; a transport failure or a payload missing the `current`
object on that single attempt propagates immediately as the final error; and
when the fetch fails, the CLI run stores nothing and exits non-zero. -/
theorem fetch_uv_single_attempt (city now : String) (upstream : Nat → HttpResult) :
    (fetch_uv city now upstream).2.1 ≤ 1
    ∧ (fetch_uv city now upstream).2.2 = []
    ∧ (citiesKeys.contains (pyTitle (pyStrip city)) = true →
        upstream 0 = .transportError →
          fetch_uv city now upstream = (.error .transport, 1, []))
    ∧ (citiesKeys.contains (pyTitle (pyStrip city)) = true →
        upstream 0 = .body none →
          fetch_uv city now upstream = (.error (.missingField "current"), 1, []))
    ∧ (∀ (w : World) (argv : List String) (e : FetchErr),
        (fetch_uv (argv.headD DEFAULT_CITY) w.now w.upstream).1 = .error e →
          (main_run argv w).exitCode = .err ∧ (main_run argv w).db = w.db
            ∧ (main_run argv w).tbl = w.tbl) := by
  refine ⟨?_, ?_, ?_, ?_, ?_⟩
  · rw [fetch_uv_shape]
    dsimp only
    split <;> omega
  · rw [fetch_uv_shape]
  · intro h1 h2
    unfold fetch_uv
    rw [if_pos h1, h2]
  · intro h1 h2
    unfold fetch_uv
    rw [if_pos h1, h2]
  · intro w argv e h
    have hful := fetch_uv_shape (argv.headD DEFAULT_CITY) w.now w.upstream
    rw [h] at hful
    simp only [main_run]
    rw [hful]
    exact ⟨rfl, rfl, rfl⟩

/-- Witness for the single-attempt theorem at Delhi with an always-failing
transport. -/
theorem fetch_uv_single_attempt_witness :
    fetch_uv "Delhi" "T" (fun _ => .transportError) = (.error .transport, 1, []) :=
  (fetch_uv_single_attempt "Delhi" "T" (fun _ => .transportError)).2.2.1 (by decide) rfl

/-- C3 counterexample: the Supabase write request of `save_to_supabase`
carries no `on_conflict` key and no merge-duplicates preference, so two
writes of the same Delhi reading leave two stored rows for that key — not the
single latest row the claim's merge-on-conflict upsert would leave. -/
theorem supabase_upsert_counterexample :
    (save_to_supabase_request sampleReading).hasOnConflictParam = false
    ∧ (save_to_supabase_request sampleReading).preferMergeDuplicates = false
    ∧ save_to_supabase true sampleReading (save_to_supabase true sampleReading [])
        = [sampleReading, sampleReading]
    ∧ ((save_to_supabase true sampleReading
          (save_to_supabase true sampleReading [])).filter
            (fun r => r.city == "Delhi")).length = 2
    ∧ ¬(((save_to_supabase true sampleReading
          (save_to_supabase true sampleReading [])).filter
            (fun r => r.city == "Delhi")).length = 1) := by
  decide

/-- C3 (amended): both persistence paths append: each remote write is a plain
POST insert that appends one row (no merge), so n remote writes add n rows,
exactly as n local saves add n local rows; neither path is idempotent by
key. -/
theorem store_append_semantics (data : Reading) (n : Nat) (tbl db : List Reading) :
    save_to_supabase true data tbl = tbl ++ [data]
    ∧ (repeatRemoteWrites data n tbl).length = tbl.length + n
    ∧ (repeatLocalSaves data n db).length = db.length + n := by
  refine ⟨rfl, ?_, ?_⟩
  · induction n generalizing tbl with
    | zero => rfl
    | succ k ih =>
      have hstep : repeatRemoteWrites data (k + 1) tbl
          = repeatRemoteWrites data k (tbl ++ [data]) := rfl
      rw [hstep, ih]
      simp
      omega
  · induction n generalizing db with
    | zero => rfl
    | succ k ih =>
      have hstep : repeatLocalSaves data (k + 1) db
          = repeatLocalSaves data k (db ++ [data]) := rfl
      rw [hstep, ih]
      simp
      omega

/-- C9 counterexample: invoked with no arguments against a healthy world, the
CLI refreshes only the default city Delhi — Mumbai, although in the city
table, is never processed, and there is no inter-location delay — not the
claimed refresh of all active locations with 2-second delays. -/
theorem main_no_batch_counterexample :
    (main_run [] healthyWorld).processedCities = ["Delhi"]
    ∧ "Mumbai" ∈ citiesKeys
    ∧ "Mumbai" ∉ (main_run [] healthyWorld).processedCities
    ∧ (main_run [] healthyWorld).sleeps = [] := by
  decide

/-- C9 (amended): each CLI run refreshes exactly one city — the single
positional argument, or Delhi when absent — with no inter-location delay; the
exit code is zero iff that one city's fetch succeeded and the local save did
not fail. -/
theorem main_single_city (argv : List String) (w : World) :
    (main_run argv w).processedCities = [argv.headD DEFAULT_CITY]
    ∧ (main_run argv w).sleeps = []
    ∧ ((main_run argv w).exitCode = .ok ↔
        (∃ r : Reading, (fetch_uv (argv.headD DEFAULT_CITY) w.now w.upstream).1 = .ok r)
          ∧ w.localFail = false) := by
  have hful := fetch_uv_shape (argv.headD DEFAULT_CITY) w.now w.upstream
  cases hres : (fetch_uv (argv.headD DEFAULT_CITY) w.now w.upstream).1 with
  | error e =>
    rw [hres] at hful
    simp only [main_run]
    rw [hful]
    simp
  | ok r =>
    rw [hres] at hful
    simp only [main_run]
    rw [hful]
    cases hlf : w.localFail <;> cases hen : w.enabled <;> cases hrf : w.remoteFail <;>
      simp [save, hlf, hen, hrf]

theorem fetchAndStore_fetchCalls_one (city op : String) (th : Rat) (w : World)
    (hcity : citiesKeys.contains (pyTitle (pyStrip city)) = true) :
    (fetchAndStore city op th w).fetchCalls = 1 := by
  have hshape := fetch_uv_shape city w.now w.upstream
  rw [if_pos hcity] at hshape
  simp only [fetchAndStore]
  rw [hshape]
  cases hres : (fetch_uv city w.now w.upstream).1 with
  | error e => cases e <;> rfl
  | ok r0 =>
    cases hlf : w.localFail <;> cases hen : w.enabled <;> cases hrf : w.remoteFail <;>
      simp [save, hlf, hen, hrf]

/-- C6: with a valid threshold, op and city, `fresh=1` always performs an
upstream fetch — even when a cached reading exists — and on success stores
the result locally; `fresh=0` with a cached reading performs zero fetches and
zero store writes and serves the cached reading unconditionally; and
`fresh=0` with no cached reading performs a fresh fetch and, on success,
stores the result exactly as the fresh path does (cache-fill-on-miss). -/
theorem banner_fresh_cache_policy (q : Query) (w : World) (th : Rat) (r : Reading)
    (hth : pyFloat (queryThresholdRaw q) = some th)
    (hop : OPS.contains (queryOp q) = true)
    (hcity : citiesKeys.contains (pyTitle (pyStrip (queryCity q))) = true) :
    (queryFresh q = true → (banner_GET q w).fetchCalls = 1)
    ∧ (queryFresh q = true → (fetch_uv (queryCity q) w.now w.upstream).1 = .ok r →
        w.localFail = false →
          (banner_GET q w).saveCalls = 1 ∧ (banner_GET q w).db = w.db ++ [r]
            ∧ (banner_GET q w).response = .okJson (mkBody (queryOp q) th r))
    ∧ (queryFresh q = false →
        get_uv (some (queryCity q)) w.enabled w.remoteRead w.db = some r →
          (banner_GET q w).fetchCalls = 0 ∧ (banner_GET q w).saveCalls = 0
            ∧ (banner_GET q w).response = .okJson (mkBody (queryOp q) th r)
            ∧ (banner_GET q w).db = w.db ∧ (banner_GET q w).tbl = w.tbl)
    ∧ (queryFresh q = false →
        get_uv (some (queryCity q)) w.enabled w.remoteRead w.db = none →
          (banner_GET q w).fetchCalls = 1)
    ∧ (queryFresh q = false →
        get_uv (some (queryCity q)) w.enabled w.remoteRead w.db = none →
        (fetch_uv (queryCity q) w.now w.upstream).1 = .ok r →
        w.localFail = false →
          (banner_GET q w).saveCalls = 1 ∧ (banner_GET q w).db = w.db ++ [r]
            ∧ (banner_GET q w).response = .okJson (mkBody (queryOp q) th r)) := by
  have hb : banner_GET q w =
      (if queryFresh q then fetchAndStore (queryCity q) (queryOp q) th w
       else
         match get_uv (some (queryCity q)) w.enabled w.remoteRead w.db with
         | some r0 =>
           { response := .okJson (mkBody (queryOp q) th r0), fetchCalls := 0,
             saveCalls := 0, db := w.db, tbl := w.tbl }
         | none => fetchAndStore (queryCity q) (queryOp q) th w) := by
    simp only [banner_GET]
    split
    next heq =>
      rw [hth] at heq
      exact Option.noConfusion heq
    next threshold heq =>
      rw [hth] at heq
      injection heq with h2
      subst h2
      refine if_neg ?_
      intro hc
      rw [hop] at hc
      exact Bool.noConfusion hc
  have hshape := fetch_uv_shape (queryCity q) w.now w.upstream
  rw [if_pos hcity] at hshape
  refine ⟨?_, ?_, ?_, ?_, ?_⟩
  · intro hf
    rw [hb, hf, if_pos rfl]
    exact fetchAndStore_fetchCalls_one _ _ _ _ hcity
  · intro hf hok hlf
    rw [hb, hf, if_pos rfl]
    simp only [fetchAndStore]
    rw [hshape, hok]
    cases hen : w.enabled <;> cases hrf : w.remoteFail <;>
      simp [save, hlf, hen, hrf]
  · intro hf hsome
    rw [hb, hf, if_neg (fun hc => Bool.noConfusion hc), hsome]
    exact ⟨rfl, rfl, rfl, rfl, rfl⟩
  · intro hf hnone
    rw [hb, hf, if_neg (fun hc => Bool.noConfusion hc), hnone]
    exact fetchAndStore_fetchCalls_one _ _ _ _ hcity
  · intro hf hnone hok hlf
    rw [hb, hf, if_neg (fun hc => Bool.noConfusion hc), hnone]
    simp only [fetchAndStore]
    rw [hshape, hok]
    cases hen : w.enabled <;> cases hrf : w.remoteFail <;>
      simp [save, hlf, hen, hrf]

/-- Witness for the fresh/cache policy at a fresh Delhi request against a
healthy world with an empty cache. -/
theorem banner_fresh_cache_policy_witness :
    (banner_GET ⟨some "Delhi", some "gte", some "6", some "1"⟩ healthyWorld).fetchCalls = 1 :=
  (banner_fresh_cache_policy ⟨some "Delhi", some "gte", some "6", some "1"⟩ healthyWorld 6
      sampleReading (by decide) (by decide) (by decide)).1 (by decide)

/-- C7: a non-numeric threshold, and then an op outside gte/gt/lte/lt/eq, are
rejected with HTTP 400 before any fetch or store write (stores unchanged,
zero calls); with valid inputs the 200 body carries
`matched = OPS[op](uv_index, threshold)`; and concretely gte compares 6 ≥ 6
as true, 5.99 ≥ 6 as false, and eq compares 6 = 6 as true. -/
theorem banner_validation_trigger (q : Query) (w : World) (th : Rat) (r : Reading) :
    (pyFloat (queryThresholdRaw q) = none →
        banner_GET q w =
          { response := .badRequest "Invalid threshold. Use number, e.g. threshold=6",
            fetchCalls := 0, saveCalls := 0, db := w.db, tbl := w.tbl })
    ∧ (pyFloat (queryThresholdRaw q) = some th → OPS.contains (queryOp q) = false →
        banner_GET q w =
          { response := .badRequest "Invalid op. Use one of: gte, gt, lte, lt, eq",
            fetchCalls := 0, saveCalls := 0, db := w.db, tbl := w.tbl })
    ∧ (pyFloat (queryThresholdRaw q) = some th → OPS.contains (queryOp q) = true →
        queryFresh q = false →
        get_uv (some (queryCity q)) w.enabled w.remoteRead w.db = some r →
          (banner_GET q w).response = .okJson (mkBody (queryOp q) th r)
          ∧ (mkBody (queryOp q) th r).trigger_matched = opsApply (queryOp q) r.uv_index th)
    ∧ opsApply "gte" 6 6 = true
    ∧ opsApply "gte" (599 / 100) 6 = false
    ∧ opsApply "eq" 6 6 = true := by
  refine ⟨?_, ?_, ?_, by decide, ?_, by decide⟩
  · intro h0
    simp only [banner_GET]
    split
    next heq => rfl
    next threshold heq =>
      rw [h0] at heq
      exact Option.noConfusion heq
  · intro h1 h2
    simp only [banner_GET]
    split
    next heq =>
      rw [h1] at heq
      exact Option.noConfusion heq
    next threshold heq =>
      rw [h1] at heq
      injection heq with hteq
      subst hteq
      rw [if_pos h2]
  · intro h1 h2 h3 h4
    simp only [banner_GET]
    split
    next heq =>
      rw [h1] at heq
      exact Option.noConfusion heq
    next threshold heq =>
      rw [h1] at heq
      injection heq with hteq
      subst hteq
      rw [if_neg (by rw [h2]; exact fun hc => Bool.noConfusion hc), h3,
        if_neg (fun hc => Bool.noConfusion hc), h4]
      exact ⟨rfl, rfl⟩
  · have hq : (599 / 100 : Rat) = mkRat 599 100 := by
      rw [Rat.mkRat_eq_div]
      norm_num
    rw [hq]
    decide

/-- Witness for the validation theorem: a request with threshold `abc` is a
400 with no fetch and no store. -/
theorem banner_validation_trigger_witness :
    banner_GET ⟨some "Delhi", some "gte", some "abc", some "0"⟩ healthyWorld =
      { response := .badRequest "Invalid threshold. Use number, e.g. threshold=6",
        fetchCalls := 0, saveCalls := 0, db := [], tbl := [] } :=
  (banner_validation_trigger ⟨some "Delhi", some "gte", some "abc", some "0"⟩
      healthyWorld 6 sampleReading).1 (by decide)

theorem fetch_uv_congr (s t now : String) (upstream : Nat → HttpResult)
    (h : pyTitle (pyStrip s) = pyTitle (pyStrip t)) :
    fetch_uv s now upstream = fetch_uv t now upstream := by
  unfold fetch_uv
  rw [h]

/-- C8: city resolution in `fetch_uv` ignores surrounding whitespace and is
case-insensitive — any two inputs equal up to ASCII case resolve identically —
canonicalizing the name to the title-cased display form, which every
successfully fetched reading carries as its city; a name whose canonical form
is not a `CITIES` key fails before any fetch, listing the sorted valid city
names. -/
theorem fetch_uv_city_resolution (s t now : String) (upstream : Nat → HttpResult)
    (pre suf : List Char)
    (hpre : pre.all pyIsSpace = true) (hsuf : suf.all pyIsSpace = true)
    (hcase : pyLower s = pyLower t) :
    fetch_uv ⟨pre ++ s.data ++ suf⟩ now upstream = fetch_uv s now upstream
    ∧ fetch_uv s now upstream = fetch_uv t now upstream
    ∧ (∀ r : Reading, (fetch_uv s now upstream).1 = .ok r → r.city = pyTitle (pyStrip s))
    ∧ (citiesKeys.contains (pyTitle (pyStrip s)) = false →
        fetch_uv s now upstream = (.error (.unknownCity sortedCityList), 0, []))
    ∧ sortedCityList = ["Agra", "Ahmedabad", "Bangalore", "Chandigarh", "Chennai", "Delhi",
        "Goa", "Hyderabad", "Indore", "Jaipur", "Kochi", "Kolkata", "Lucknow", "Mumbai",
        "Pune", "Surat", "Varanasi"] := by
  refine ⟨?_, ?_, ?_, ?_, by decide⟩
  · exact fetch_uv_congr _ _ _ _ (canon_pad s pre suf hpre hsuf)
  · refine fetch_uv_congr _ _ _ _ ?_
    calc pyTitle (pyStrip s) = pyTitle (pyStrip (pyLower s)) := (canon_lower s).symm
      _ = pyTitle (pyStrip (pyLower t)) := by rw [hcase]
      _ = pyTitle (pyStrip t) := canon_lower t
  · intro r h
    unfold fetch_uv at h
    by_cases hc : citiesKeys.contains (pyTitle (pyStrip s)) = true
    · rw [if_pos hc] at h
      cases hu : upstream 0 with
      | transportError => rw [hu] at h; exact absurd h (by simp)
      | httpStatusError => rw [hu] at h; exact absurd h (by simp)
      | body oc =>
        rw [hu] at h
        cases oc with
        | none => exact absurd h (by simp)
        | some cur => exact (buildReading_ok_fields _ _ _ _ h).1
    · rw [if_neg hc] at h
      exact absurd h (by simp)
  · intro h
    unfold fetch_uv
    have hneg : ¬ (citiesKeys.contains (pyTitle (pyStrip s)) = true) := by
      rw [h]
      exact fun hc => Bool.noConfusion hc
    rw [if_neg hneg]

/-- Witness for the resolution theorem: `dELhi` and `delHI` resolve
identically. -/
theorem fetch_uv_city_resolution_witness :
    fetch_uv "dELhi" "T" (fun _ => HttpResult.transportError)
      = fetch_uv "delHI" "T" (fun _ => HttpResult.transportError) :=
  (fetch_uv_city_resolution "dELhi" "delHI" "T" (fun _ => HttpResult.transportError)
      [' '] [' '] (by decide) (by decide) (by decide)).2.1

end Parcer
